import Mathlib

/-!
Shallow embedding of the nutter repository (files `common/clustermanager.py`,
`cli/nuttercli.py`, `cli/cli.py`) and proofs about the spec's claims.

JSON values (the result of Python's `json.load`) are modelled by the
inductive `JSON`; Python dicts are association lists with unique keys in
insertion order, and Python truthiness, `in`, `[...]` indexing and
`dict.update` are modelled explicitly.  Exceptions are modelled with
`Except PyErr`.
-/

/-- A JSON value as produced by `json.load`.  Numbers are modelled as `Int`
(the configs manipulated by the code under study only use integers). -/
inductive JSON where
  | null : JSON
  | bool (b : Bool) : JSON
  | num (n : Int) : JSON
  | str (s : String) : JSON
  | arr (xs : List JSON) : JSON
  | obj (kvs : List (String × JSON)) : JSON
deriving Repr

/-- Python `==` on JSON values (structural equality; the `1 == True`
coercion corner of Python is not exercised by any config). -/
def JSON.beq : JSON → JSON → Bool
  | .null, .null => true
  | .bool a, .bool b => a == b
  | .num a, .num b => a == b
  | .str a, .str b => a == b
  | .arr [], .arr [] => true
  | .arr (x :: xs), .arr (y :: ys) => JSON.beq x y && JSON.beq (.arr xs) (.arr ys)
  | .obj [], .obj [] => true
  | .obj ((k, v) :: xs), .obj ((l, w) :: ys) =>
      k == l && JSON.beq v w && JSON.beq (.obj xs) (.obj ys)
  | _, _ => false

instance : BEq JSON := ⟨JSON.beq⟩

/-- Python truthiness of a JSON value (`if x:`). -/
def JSON.truthy : JSON → Bool
  | .null => false
  | .bool b => b
  | .num n => n != 0
  | .str s => !s.isEmpty
  | .arr xs => !xs.isEmpty
  | .obj kvs => !kvs.isEmpty

/-- `d.get(k, None)` on a Python dict. -/
def dictGet (d : List (String × JSON)) (k : String) : Option JSON :=
  (d.find? (fun kv => kv.1 == k)).map Prod.snd

/-- `k in d` on a Python dict. -/
def dictMem (d : List (String × JSON)) (k : String) : Bool :=
  (dictGet d k).isSome

/-- `d[k] = v` on a Python dict: replace in place if the key exists,
append otherwise. -/
def dictSet (d : List (String × JSON)) (k : String) (v : JSON) :
    List (String × JSON) :=
  if dictMem d k then d.map (fun kv => if kv.1 == k then (k, v) else kv)
  else d ++ [(k, v)]

/-- `d.update(other)` on Python dicts: every key of `other` is written
into `d`, replacing existing values. -/
def dictUpdate (d other : List (String × JSON)) : List (String × JSON) :=
  other.foldl (fun acc kv => dictSet acc kv.1 kv.2) d

/-- Python truthiness of an optional JSON value (`None` is falsy). -/
def optTruthy : Option JSON → Bool
  | none => false
  | some j => j.truthy

/-- Truthiness of a `str`-or-`None` argument. -/
def optStrTruthy : Option String → Bool
  | none => false
  | some s => !s.isEmpty

/-- Exceptions raised by the embedded Python code. -/
inductive PyErr where
  | clusterConfigException (msg : String) : PyErr
  | typeError : PyErr
  | attributeError : PyErr
  | keyError : PyErr
deriving Repr, DecidableEq

/-- `t in s` on Python strings: substring containment. -/
def pySubstr (t s : String) : Bool :=
  t.isEmpty || (s.splitOn t).length ≥ 2

/-- Python `cluster_type in x` where `cluster_type : str = None`:
key membership for dicts, element membership for lists, substring test
for strings (a `None` needle raises `TypeError` there), `TypeError`
otherwise. -/
def pyIn (ct : Option String) : JSON → Except PyErr Bool
  | .obj kvs =>
      .ok (match ct with
           | none => false
           | some s => dictMem kvs s)
  | .arr xs =>
      .ok (xs.contains (match ct with
                        | none => JSON.null
                        | some s => JSON.str s))
  | .str s =>
      match ct with
      | none => .error .typeError
      | some t => .ok (pySubstr t s)
  | _ => .error .typeError

/-- Python `x[ct]` where `ct : str = None`: dict lookup (`KeyError` when
absent); every non-dict container raises `TypeError` for a string or
`None` subscript. -/
def pyIndex (ct : Option String) : JSON → Except PyErr JSON
  | .obj kvs =>
      match ct with
      | none => .error .keyError
      | some s =>
          match dictGet kvs s with
          | some v => .ok v
          | none => .error .keyError
  | _ => .error .typeError

/-- Python `base.update(other)`: both must be dicts (`update` on a
non-dict receiver raises `AttributeError`; a non-mapping argument raises
`TypeError`). -/
def pyUpdate : JSON → JSON → Except PyErr JSON
  | .obj base, .obj other => .ok (.obj (dictUpdate base other))
  | .obj _, _ => .error .typeError
  | _, _ => .error .attributeError

/-- `common.clustermanager.read_job_cluster_config`.  The filesystem is a
map from paths to the parsed JSON of existing files (`none` = the path
does not exist).  Faithful to the source, including the statement
`ClusterConfigException(f"Cluster type ... is not found")` that constructs
an exception object and discards it without `raise`: that branch falls
through and returns the un-overlaid base config. -/
def read_job_cluster_config (fs : String → Option JSON)
    (path_to_config : String) (cluster_type : Option String := none) :
    Except PyErr JSON :=
  match fs path_to_config with
  | none =>
      .error (.clusterConfigException
        s!"Cluster config by path {path_to_config} is not found")
  | some config =>
      match config with
      | .obj cfg =>
          match dictGet cfg "base_config" with
          | some bc =>
              if bc.truthy then
                match dictGet cfg "cluster_configs" with
                | some ccs =>
                    match pyIn cluster_type ccs with
                    | .error e => .error e
                    | .ok mem =>
                        if mem then
                          match pyIndex cluster_type ccs with
                          | .error e => .error e
                          | .ok overlay => pyUpdate bc overlay
                        else
                          -- the source builds the exception here but never raises it
                          .ok bc
                | none => .ok bc
              else
                .error (.clusterConfigException
                  s!"Base config section is not found in file {path_to_config}")
          | none =>
              .error (.clusterConfigException
                s!"Base config section is not found in file {path_to_config}")
      | _ => .error .attributeError  -- `config.get` on a non-dict JSON value

/-- `True` exactly when the computation raised `ClusterConfigException`. -/
def raisesCCE : Except PyErr JSON → Bool
  | .error (.clusterConfigException _) => true
  | _ => false

/-- Structural equality test on the outcome of an embedded computation. -/
instance {ε α : Type} [BEq ε] [BEq α] : BEq (Except ε α) :=
  ⟨fun a b =>
    match a, b with
    | .ok x, .ok y => x == y
    | .error e, .error f => e == f
    | _, _ => false⟩

/-- Modelled from the spec: `common.apiclient.DEFAULT_POLL_WAIT_TIME` is not
among the repository's files; it is only the default value of the CLI's
`poll_wait_time` argument and its exact value is irrelevant to every claim. -/
def DEFAULT_POLL_WAIT_TIME : Int := 5

/-- Modelled from the spec: `api.TestNotebook._is_valid_test_name` is not
among the repository's files; the spec says a test identifier "must satisfy
a naming convention (e.g., begins with a recognized test prefix)".  Used as
a concrete instance when the claims' theorems, which hold for every such
predicate, are instantiated. -/
def spec_valid_test_name (name : String) : Bool :=
  "test_".data.isPrefixOf name.data

namespace ReportWriters

/-- Modelled from the spec: `cli.reportsman.ReportWriters` is not among the
repository's files; the spec says report kinds are "zero or more of
{JUnit, Tags}, combined as a bit-flag set". -/
def JUNIT : Nat := 1

/-- Modelled from the spec: the second bit-flag of the set (see `JUNIT`). -/
def TAGS : Nat := 2

end ReportWriters

/-- The report manager as seen by `NutterCLI._handle_reports`: what it
exposes there is its list of registered provider names
(`has_providers` / `providers_names`). -/
structure ReportManager where
  providers : List String
deriving Repr

/-- `report_manager.has_providers()`. -/
def ReportManager.has_providers (rm : ReportManager) : Bool :=
  !rm.providers.isEmpty

namespace reportsman

/-- Modelled from the spec: `cli.reportsman.get_report_writer_manager` is not
among the repository's files; the spec says the writers are selected by the
bit-flag set (zero or more of {JUnit, Tags}), and "if no report kind is
selected, this is a no-op (must not attempt to open any output file)", so
the manager built from flag value 0 has no providers. -/
def get_report_writer_manager (writers : Nat) : ReportManager :=
  { providers :=
      (if writers &&& ReportWriters.JUNIT ≠ 0 then ["JUnitXmlReportWriter"] else [])
      ++ (if writers &&& ReportWriters.TAGS ≠ 0 then ["TagsReportWriter"] else []) }

end reportsman

/-- The `notebook_result` of an execution result: `_handle_reports` reads
its `exit_output` (possibly absent). -/
structure NotebookResult where
  exit_output : Option String
deriving Repr

/-- An execution result as consumed by `NutterCLI._handle_reports`. -/
structure ExecResult where
  notebook_path : String
  notebook_result : NotebookResult
deriving Repr

/-- The observable effects of `NutterCLI._handle_reports`, in order:
`print('Writing ... report.')`, the per-result warning, the
`report_manager.add_result` call, the `report_manager.write()` call, and
`print('File ... written')`. -/
inductive ReportEffect (α : Type) where
  | printWritingProvider (name : String) : ReportEffect α
  | warn (notebook_path : String) : ReportEffect α
  | addResult (notebook_path : String) (t : α) : ReportEffect α
  | write : ReportEffect α
  | printFileWritten (name : String) : ReportEffect α
deriving Repr

/-- The notebook path of a `warn` effect, `none` for every other effect. -/
def ReportEffect.warnPath {α : Type} : ReportEffect α → Option String
  | .warn p => some p
  | _ => none

/-- The `(path, result)` pair of an `addResult` effect, `none` otherwise. -/
def ReportEffect.addedPair {α : Type} : ReportEffect α → Option (String × α)
  | .addResult p t => some (p, t)
  | _ => none

/-- `True` for the `write` effect (the `report_manager.write()` call). -/
def ReportEffect.isWrite {α : Type} : ReportEffect α → Bool
  | .write => true
  | _ => false

namespace NutterCLI

/-- The body of `_handle_reports`' loop over `exec_results`: each result
whose `exit_output` parses (`api.to_testresults`, passed in as
`to_testresults` since `common/api.py` is not among the repository's files)
is added to the report manager; each result whose output is missing or
invalid gets one warning naming its notebook path and is skipped. -/
def report_loop {α : Type} (to_testresults : Option String → Option α) :
    List ExecResult → List (ReportEffect α)
  | [] => []
  | r :: rs =>
      (match to_testresults r.notebook_result.exit_output with
       | none => [ReportEffect.warn r.notebook_path]
       | some t => [ReportEffect.addResult r.notebook_path t])
      ++ report_loop to_testresults rs

/-- The results accumulated in the report manager by `add_result` during
`_handle_reports` (the manager's state when `write()` runs). -/
def added_results {α : Type} (to_testresults : Option String → Option α)
    (exec_results : List ExecResult) : List (String × α) :=
  exec_results.filterMap (fun r =>
    (to_testresults r.notebook_result.exit_output).map
      (fun t => (r.notebook_path, t)))

/-- `NutterCLI._handle_reports` as its trace of observable effects.
`write_result` stands for `report_manager.write()` (the writers live in
`cli/reportsman.py`, not among the repository's files): from the results
added to the manager it returns the names of the files it wrote. -/
def handle_reports {α : Type} (to_testresults : Option String → Option α)
    (write_result : List (String × α) → List String)
    (report_manager : ReportManager) (exec_results : List ExecResult) :
    List (ReportEffect α) :=
  if !report_manager.has_providers then []
  else
    report_manager.providers.map ReportEffect.printWritingProvider
    ++ report_loop to_testresults exec_results
    ++ [ReportEffect.write]
    ++ (write_result (added_results to_testresults exec_results)).map
         ReportEffect.printFileWritten

/-- The `writers` bit-flag value computed by
`NutterCLI._get_report_writer_manager` before it calls
`reports.get_report_writer_manager(writers)`. -/
def report_writers (junit_report tags_report : Bool) : Nat :=
  let writers : Nat := 0
  let writers := if junit_report then ReportWriters.JUNIT else writers
  let writers := if tags_report then writers + ReportWriters.TAGS else writers
  writers

end NutterCLI

/-- Helper for `pySplitSlash`: consume the characters, cutting at `/`. -/
def splitSlashAux : List Char → List Char → List String
  | [], acc => [String.mk acc.reverse]
  | c :: cs, acc =>
      if c = '/' then String.mk acc.reverse :: splitSlashAux cs []
      else splitSlashAux cs (c :: acc)

/-- Python `pattern.split('/')`: `"".split('/') == ['']`, and a trailing
separator yields a final empty segment. -/
def pySplitSlash (pattern : String) : List String :=
  splitSlashAux pattern.data []

namespace NutterCLI

/-- `NutterCLI._is_a_test_pattern`.  `split('/')` never returns an empty
list, so the source's `len(segments) > 0` guard always holds and the
function returns a boolean. -/
def is_a_test_pattern (is_valid_test_name : String → Bool)
    (pattern : String) : Bool :=
  let segments := pySplitSlash pattern
  let search_pattern := segments.getLastD ""
  if is_valid_test_name search_pattern then false
  else true

end NutterCLI

/-- The substring of a pattern after its last `/` (the whole pattern when it
has no `/`): what `_is_a_test_pattern` tests the naming convention on. -/
def lastSegment (pattern : String) : String :=
  (pySplitSlash pattern).getLastD ""

/-- The keyword arguments of `NutterCLI.run`, with the source's defaults.
`cluster_id` and `cluster_conf_path` are `str`-or-`None`, `cluster_config`
a dict-or-`None`. -/
structure RunArgs where
  test_pattern : String
  cluster_id : Option String := none
  timeout : Int := 120
  junit_report : Bool := false
  tags_report : Bool := false
  max_parallel_tests : Int := 1
  recursive : Bool := false
  poll_wait_time : Int := DEFAULT_POLL_WAIT_TIME
  notebook_params : Option JSON := none
  cluster_conf_path : Option String := none
  cluster_type : Option String := none
  cluster_config : Option (List (String × JSON)) := none
deriving Repr

/-- Truthiness of the `cluster_config` dict-or-`None` argument. -/
def dictOptTruthy : Option (List (String × JSON)) → Bool
  | none => false
  | some kvs => !kvs.isEmpty

/-- A call `NutterCLI.run` makes on its nutter (`api.Nutter`, an external
collaborator), with the arguments the source passes. -/
inductive NutterCall where
  | runTests (pattern : String) (cluster_id : Option String)
      (cluster_conf : Option JSON) (timeout : Int) (max_parallel_tests : Int)
      (recursive : Bool) (poll_wait_time : Int) (notebook_params : Option JSON) :
      NutterCall
  | eventsWait : NutterCall
  | runTest (pattern : String) (cluster_id : Option String) (timeout : Int)
      (poll_wait_time : Int) : NutterCall
deriving Repr

/-- `True` for a `runTest` call. -/
def NutterCall.isRunTest : NutterCall → Bool
  | .runTest .. => true
  | _ => false

/-- `True` for a `runTests` call. -/
def NutterCall.isRunTests : NutterCall → Bool
  | .runTests .. => true
  | _ => false

/-- `True` for the `events_processor_wait` call. -/
def NutterCall.isEventsWait : NutterCall → Bool
  | .eventsWait => true
  | _ => false

/-- How `NutterCLI.run` ends: a normal return, or `exit(code)` (the
`except Exception` handler logs the error and calls `exit(1)`). -/
inductive CLIOutcome where
  | returned : CLIOutcome
  | exited (code : Nat) : CLIOutcome
deriving Repr, DecidableEq

namespace NutterCLI

/-- Lines 64-70 of `NutterCLI.run`: resolve `cluster_conf` from
`cluster_config` (when not `None`), else from `cluster_conf_path` (when
truthy) via `read_job_cluster_config`, else `None`. -/
def resolve_cluster_conf (fs : String → Option JSON) (a : RunArgs) :
    Except PyErr (Option JSON) :=
  match a.cluster_config with
  | none =>
      match a.cluster_conf_path with
      | some p =>
          if !p.isEmpty then
            match read_job_cluster_config fs p a.cluster_type with
            | .error e => .error e
            | .ok c => .ok (some c)
          else .ok none
      | none => .ok none
  | some cc => .ok (some (.obj cc))

/-- `NutterCLI.run` as the list of calls it makes on the nutter plus its
outcome.  The external collaborators are passed in: `is_valid_test_name`
(`api.TestNotebook._is_valid_test_name`), the nutter's `run_tests` and
`run_test` (their return values), `validate_ok` (whether
`ExecutionResultsValidator().validate(results)` returns instead of
raising), and the filesystem.  Any exception is caught by the
`except Exception` handler, which exits with status 1; an exception from
the argument check or config resolution therefore ends the run before any
nutter call.  The report effects of `_handle_results` are modelled
separately by `handle_reports`. -/
def run {ρ : Type} (is_valid_test_name : String → Bool)
    (nutter_run_tests : String → Option String → Option JSON → Int → Int →
      Bool → Int → Option JSON → List ρ)
    (nutter_run_test : String → Option String → Int → Int → ρ)
    (validate_ok : List ρ → Bool)
    (fs : String → Option JSON) (a : RunArgs) :
    List NutterCall × CLIOutcome :=
  if !optStrTruthy a.cluster_conf_path && !optStrTruthy a.cluster_id
      && !dictOptTruthy a.cluster_config then
    ([], .exited 1)  -- NotEnoughArguments raised, caught, exit(1)
  else
    match resolve_cluster_conf fs a with
    | .error _ => ([], .exited 1)
    | .ok cluster_conf =>
        if is_a_test_pattern is_valid_test_name a.test_pattern then
          let results := nutter_run_tests a.test_pattern a.cluster_id
            cluster_conf a.timeout a.max_parallel_tests a.recursive
            a.poll_wait_time a.notebook_params
          ([.runTests a.test_pattern a.cluster_id cluster_conf a.timeout
              a.max_parallel_tests a.recursive a.poll_wait_time
              a.notebook_params,
            .eventsWait],
           if validate_ok results then .returned else .exited 1)
        else
          let result := nutter_run_test a.test_pattern a.cluster_id
            a.timeout a.poll_wait_time
          ([.runTest a.test_pattern a.cluster_id a.timeout a.poll_wait_time],
           if validate_ok [result] then .returned else .exited 1)

end NutterCLI

/-! ### Concrete inputs used by witnesses and counterexamples -/

/-- A filesystem with no files. -/
def fsEmpty : String → Option JSON := fun _ => none

/-- A config file whose `base_config` section is the empty object `{}`. -/
def fsEmptyBase : String → Option JSON := fun p =>
  if p = "cfg.json" then
    some (.obj [("base_config", .obj []),
                ("cluster_configs", .obj [("gpu", .obj [("b", .num 3)])])])
  else none

/-- A config file `{"base_config": {"a": 1, "b": 2},
"cluster_configs": {"gpu": {"b": 3}}}` (the spec's worked example). -/
def fsSpecExample : String → Option JSON := fun p =>
  if p = "cfg.json" then
    some (.obj [("base_config", .obj [("a", .num 1), ("b", .num 2)]),
                ("cluster_configs", .obj [("gpu", .obj [("b", .num 3)])])])
  else none

/-- A config file `{"base_config": {"a": 1},
"cluster_configs": {"gpu": {"b": 3}}}`. -/
def fsGpuOnly : String → Option JSON := fun p =>
  if p = "cfg.json" then
    some (.obj [("base_config", .obj [("a", .num 1)]),
                ("cluster_configs", .obj [("gpu", .obj [("b", .num 3)])])])
  else none

/-- A config file whose `base_config` entry is the number `5` (truthy but
not an object). -/
def fsNumericBase : String → Option JSON := fun p =>
  if p = "cfg.json" then some (.obj [("base_config", .num 5)]) else none

/-- A config file `{"base_config": {"a": 1}}` with no `cluster_configs`. -/
def fsNoClusterConfigs : String → Option JSON := fun p =>
  if p = "cfg.json" then
    some (.obj [("base_config", .obj [("a", .num 1)])])
  else none

/-- A config file `{"base_config": {}}` with no `cluster_configs`. -/
def fsNoClusterConfigsEmpty : String → Option JSON := fun p =>
  if p = "cfg.json" then some (.obj [("base_config", .obj [])]) else none

/-- A concrete `run_tests` collaborator returning one result. -/
def runTestsW : String → Option String → Option JSON → Int → Int → Bool →
    Int → Option JSON → List Nat := fun _ _ _ _ _ _ _ _ => [0]

/-- A concrete `run_test` collaborator. -/
def runTestW : String → Option String → Int → Int → Nat := fun _ _ _ _ => 0

/-- A concrete validator that accepts every batch (never raises). -/
def validateOkW : List Nat → Bool := fun _ => true

/-! ### Claim theorems -/

/-- Claim C1, counterexample: the file
`{"base_config": {}, "cluster_configs": {"gpu": {"b": 3}}}` contains a
`base_config` object and an overlay for the requested type `"gpu"`, yet
`read_job_cluster_config` does not return the merged config `{"b": 3}`:
the empty object is falsy in Python, so the code raises
`ClusterConfigException` instead. -/
theorem C1_counterexample :
    read_job_cluster_config fsEmptyBase "cfg.json" (some "gpu")
      = .error (.clusterConfigException
          "Base config section is not found in file cfg.json")
    ∧ (read_job_cluster_config fsEmptyBase "cfg.json" (some "gpu")
        == Except.ok (JSON.obj [("b", JSON.num 3)])) = false :=
  ⟨rfl, rfl⟩

/-- Claim C1 (amended: the `base_config` object must be non-empty, since
Python's truthiness test on the empty dict sends the code into the
"section not found" error branch): for every config file whose JSON holds
a non-empty `base_config` object and a `cluster_configs` object with an
overlay object for the requested cluster type, `read_job_cluster_config`
returns the base config updated with the overlay, the overlay's keys
replacing the base's. -/
theorem C1_merge_overlay (fs : String → Option JSON) (p s : String)
    (cfg base ccs overlay : List (String × JSON))
    (hfs : fs p = some (.obj cfg))
    (hbase : dictGet cfg "base_config" = some (.obj base))
    (hne : base ≠ [])
    (hccs : dictGet cfg "cluster_configs" = some (.obj ccs))
    (hov : dictGet ccs s = some (.obj overlay)) :
    read_job_cluster_config fs p (some s)
      = .ok (.obj (dictUpdate base overlay)) := by
  cases base with
  | nil => exact absurd rfl hne
  | cons kv bs =>
      simp [read_job_cluster_config, hfs, hbase, hccs, hov, JSON.truthy,
        pyIn, dictMem, pyIndex, pyUpdate]

/-- Claim C1, witness: on the spec's worked example the merged config is
`{"a": 1, "b": 3}`. -/
theorem C1_witness :
    read_job_cluster_config fsSpecExample "cfg.json" (some "gpu")
      = .ok (.obj [("a", JSON.num 1), ("b", JSON.num 3)]) :=
  C1_merge_overlay fsSpecExample "cfg.json" "gpu"
    [("base_config", .obj [("a", .num 1), ("b", .num 2)]),
     ("cluster_configs", .obj [("gpu", .obj [("b", .num 3)])])]
    [("a", .num 1), ("b", .num 2)]
    [("gpu", .obj [("b", .num 3)])]
    [("b", .num 3)]
    rfl rfl (List.cons_ne_nil _ _) rfl rfl

/-- Claim C2: the source constructs
`ClusterConfigException(f"Cluster type ... is not found")` without
`raise`, so requesting a cluster type that is not a key of
`cluster_configs` does NOT raise: the call returns the silently
un-overlaid base config.  Evaluated at the failing input
(`{"base_config": {"a": 1}, "cluster_configs": {"gpu": {"b": 3}}}`,
requested type `"tpu"`). -/
theorem C2_unknown_type_not_raised :
    read_job_cluster_config fsGpuOnly "cfg.json" (some "tpu")
      = .ok (.obj [("a", JSON.num 1)])
    ∧ raisesCCE (read_job_cluster_config fsGpuOnly "cfg.json" (some "tpu"))
        = false :=
  ⟨rfl, rfl⟩

/-- Claim C3, counterexample: the file `{"base_config": 5}` lacks a
`base_config` object (its `base_config` entry is a number), yet
`read_job_cluster_config` raises nothing: `5` is truthy, there is no
`cluster_configs` key, and the number is returned as the "config". -/
theorem C3_counterexample :
    read_job_cluster_config fsNumericBase "cfg.json" none = .ok (.num 5)
    ∧ raisesCCE (read_job_cluster_config fsNumericBase "cfg.json" none)
        = false :=
  ⟨rfl, rfl⟩

/-- Claim C3 (amended: for an existing file, the error is raised when the
JSON is an object whose `base_config` entry is missing or falsy — a
truthy non-object entry such as a number is returned without raising):
a missing path raises `ClusterConfigException`; an existing object config
with a missing-or-falsy `base_config` raises `ClusterConfigException`;
and in the CLI run flow such an error ends the run with exit status 1
before `run_tests` or `run_test` is invoked. -/
theorem C3_config_errors_before_dispatch :
    (∀ (fs : String → Option JSON) (p : String) (ct : Option String),
       fs p = none → raisesCCE (read_job_cluster_config fs p ct) = true)
    ∧ (∀ (fs : String → Option JSON) (p : String) (ct : Option String)
         (cfg : List (String × JSON)),
         fs p = some (.obj cfg) →
         optTruthy (dictGet cfg "base_config") = false →
         raisesCCE (read_job_cluster_config fs p ct) = true)
    ∧ (∀ (ρ : Type) (valid : String → Bool)
         (rtests : String → Option String → Option JSON → Int → Int → Bool →
           Int → Option JSON → List ρ)
         (rtest : String → Option String → Int → Int → ρ)
         (vok : List ρ → Bool) (fs : String → Option JSON) (a : RunArgs)
         (p : String) (e : PyErr),
         a.cluster_config = none →
         a.cluster_conf_path = some p →
         p.isEmpty = false →
         read_job_cluster_config fs p a.cluster_type = .error e →
         NutterCLI.run valid rtests rtest vok fs a = ([], .exited 1)) := by
  refine ⟨?_, ?_, ?_⟩
  · intro fs p ct h
    simp [read_job_cluster_config, h, raisesCCE]
  · intro fs p ct cfg hfs hbc
    cases hget : dictGet cfg "base_config" with
    | none => simp [read_job_cluster_config, hfs, hget, raisesCCE]
    | some bc =>
        have hbt : bc.truthy = false := by
          simpa [optTruthy, hget] using hbc
        simp [read_job_cluster_config, hfs, hget, hbt, raisesCCE]
  · intro ρ valid rtests rtest vok fs a p e h1 h2 h3 h4
    simp [NutterCLI.run, NutterCLI.resolve_cluster_conf, h1, h2, h3, h4,
      optStrTruthy]

/-- Claim C3, witness: a missing path, a config `{"base_config": {}}`
whose section is falsy, and a CLI run whose `cluster_conf_path` points at
a missing file, all end in a `ClusterConfigException` (the CLI with exit
status 1 and no nutter call). -/
theorem C3_witness :
    raisesCCE (read_job_cluster_config fsEmpty "missing.json" none) = true
    ∧ raisesCCE (read_job_cluster_config fsEmptyBase "cfg.json" none) = true
    ∧ NutterCLI.run spec_valid_test_name runTestsW runTestW validateOkW
        fsEmpty
        { test_pattern := "proj/test_a",
          cluster_conf_path := some "missing.json" }
      = ([], .exited 1) := by
  refine ⟨?_, ?_, ?_⟩
  · exact C3_config_errors_before_dispatch.1 fsEmpty "missing.json" none rfl
  · exact C3_config_errors_before_dispatch.2.1 fsEmptyBase "cfg.json" none
      [("base_config", .obj []),
       ("cluster_configs", .obj [("gpu", .obj [("b", .num 3)])])]
      rfl rfl
  · exact C3_config_errors_before_dispatch.2.2 Nat spec_valid_test_name
      runTestsW runTestW validateOkW fsEmpty
      { test_pattern := "proj/test_a",
        cluster_conf_path := some "missing.json" }
      "missing.json"
      (.clusterConfigException "Cluster config by path missing.json is not found")
      rfl rfl rfl rfl

/-- Claim C10, counterexample: the file `{"base_config": {}}` contains a
`base_config` object and no `cluster_configs` key, yet
`read_job_cluster_config` does not return it unchanged: the empty object
is falsy in Python, so the code raises `ClusterConfigException`. -/
theorem C10_counterexample :
    read_job_cluster_config fsNoClusterConfigsEmpty "cfg.json" none
      = .error (.clusterConfigException
          "Base config section is not found in file cfg.json")
    ∧ (read_job_cluster_config fsNoClusterConfigsEmpty "cfg.json" none
        == Except.ok (JSON.obj [])) = false :=
  ⟨rfl, rfl⟩

/-- Claim C10 (amended: the `base_config` object must be non-empty, the
empty dict being falsy): for every existing config file whose JSON holds
a non-empty `base_config` object and no `cluster_configs` key,
`read_job_cluster_config` returns the base config unchanged for every
value of `cluster_type` (including `None` and arbitrary strings), without
raising. -/
theorem C10_base_returned_unchanged (fs : String → Option JSON) (p : String)
    (cfg base : List (String × JSON))
    (hfs : fs p = some (.obj cfg))
    (hbase : dictGet cfg "base_config" = some (.obj base))
    (hne : base ≠ [])
    (hccs : dictGet cfg "cluster_configs" = none) :
    ∀ ct : Option String,
      read_job_cluster_config fs p ct = .ok (.obj base) := by
  intro ct
  cases base with
  | nil => exact absurd rfl hne
  | cons kv bs =>
      simp [read_job_cluster_config, hfs, hbase, hccs, JSON.truthy]

/-- Claim C10, witness: `{"base_config": {"a": 1}}` is returned unchanged
both for `cluster_type=None` and for an arbitrary string. -/
theorem C10_witness :
    read_job_cluster_config fsNoClusterConfigs "cfg.json" none
      = .ok (.obj [("a", JSON.num 1)])
    ∧ read_job_cluster_config fsNoClusterConfigs "cfg.json" (some "anything")
      = .ok (.obj [("a", JSON.num 1)]) :=
  ⟨C10_base_returned_unchanged fsNoClusterConfigs "cfg.json"
      [("base_config", .obj [("a", .num 1)])] [("a", .num 1)]
      rfl rfl (List.cons_ne_nil _ _) rfl none,
   C10_base_returned_unchanged fsNoClusterConfigs "cfg.json"
      [("base_config", .obj [("a", .num 1)])] [("a", .num 1)]
      rfl rfl (List.cons_ne_nil _ _) rfl (some "anything")⟩

/-- Claim C4: when `cluster_conf_path`, `cluster_id` and `cluster_config`
are all falsy, `NutterCLI.run` raises `NotEnoughArguments`, which its
`except` handler turns into `exit(1)`: no nutter call is made and the
process exits non-zero. -/
theorem C4_not_enough_arguments (ρ : Type) (valid : String → Bool)
    (rtests : String → Option String → Option JSON → Int → Int → Bool →
      Int → Option JSON → List ρ)
    (rtest : String → Option String → Int → Int → ρ)
    (vok : List ρ → Bool) (fs : String → Option JSON) (a : RunArgs)
    (h1 : optStrTruthy a.cluster_conf_path = false)
    (h2 : optStrTruthy a.cluster_id = false)
    (h3 : dictOptTruthy a.cluster_config = false) :
    NutterCLI.run valid rtests rtest vok fs a = ([], .exited 1) := by
  simp [NutterCLI.run, h1, h2, h3]

/-- Claim C4, witness: a run given only a test pattern exits with status 1
without dispatching anything. -/
theorem C4_witness :
    NutterCLI.run spec_valid_test_name runTestsW runTestW validateOkW
      fsEmpty { test_pattern := "proj/test_a" } = ([], .exited 1) :=
  C4_not_enough_arguments Nat spec_valid_test_name runTestsW runTestW
    validateOkW fsEmpty { test_pattern := "proj/test_a" } rfl rfl rfl

/-- Helper: once the argument check passes and the cluster config
resolves, `NutterCLI.run` reduces to the dispatch on
`_is_a_test_pattern`. -/
theorem NutterCLI.run_dispatch_eq (ρ : Type) (valid : String → Bool)
    (rtests : String → Option String → Option JSON → Int → Int → Bool →
      Int → Option JSON → List ρ)
    (rtest : String → Option String → Int → Int → ρ)
    (vok : List ρ → Bool) (fs : String → Option JSON) (a : RunArgs)
    (conf : Option JSON)
    (hguard : (!optStrTruthy a.cluster_conf_path
        && !optStrTruthy a.cluster_id
        && !dictOptTruthy a.cluster_config) = false)
    (hconf : NutterCLI.resolve_cluster_conf fs a = .ok conf) :
    NutterCLI.run valid rtests rtest vok fs a =
      if NutterCLI.is_a_test_pattern valid a.test_pattern then
        ([.runTests a.test_pattern a.cluster_id conf a.timeout
            a.max_parallel_tests a.recursive a.poll_wait_time
            a.notebook_params,
          .eventsWait],
         if vok (rtests a.test_pattern a.cluster_id conf a.timeout
             a.max_parallel_tests a.recursive a.poll_wait_time
             a.notebook_params) then .returned else .exited 1)
      else
        ([.runTest a.test_pattern a.cluster_id a.timeout a.poll_wait_time],
         if vok [rtest a.test_pattern a.cluster_id a.timeout
             a.poll_wait_time] then .returned else .exited 1) := by
  unfold NutterCLI.run
  rw [hguard, hconf]
  simp

/-- Helper: `_is_a_test_pattern` answers `False` exactly when the segment
after the last `/` satisfies the naming convention. -/
theorem NutterCLI.is_a_test_pattern_eq (valid : String → Bool)
    (pattern : String) :
    NutterCLI.is_a_test_pattern valid pattern = !valid (lastSegment pattern) := by
  simp only [NutterCLI.is_a_test_pattern, lastSegment]
  cases valid ((pySplitSlash pattern).getLastD "") <;> rfl

/-- Claim C8: in a run that reaches dispatch (a cluster selector is
present and the cluster config resolves), the single-test path
(`run_test`) is taken if and only if the substring after the last `/` of
the pattern satisfies the test-name naming convention, and the pattern
path (`run_tests`) is taken otherwise.  `valid` stands for
`api.TestNotebook._is_valid_test_name`, whose code is outside the
repository's files; the property holds for every such predicate. -/
theorem C8_dispatch_by_naming (ρ : Type) (valid : String → Bool)
    (rtests : String → Option String → Option JSON → Int → Int → Bool →
      Int → Option JSON → List ρ)
    (rtest : String → Option String → Int → Int → ρ)
    (vok : List ρ → Bool) (fs : String → Option JSON) (a : RunArgs)
    (conf : Option JSON)
    (hne : a.test_pattern ≠ "")
    (hguard : (!optStrTruthy a.cluster_conf_path
        && !optStrTruthy a.cluster_id
        && !dictOptTruthy a.cluster_config) = false)
    (hconf : NutterCLI.resolve_cluster_conf fs a = .ok conf) :
    ((NutterCLI.run valid rtests rtest vok fs a).1.any NutterCall.isRunTest
       = valid (lastSegment a.test_pattern))
    ∧ ((NutterCLI.run valid rtests rtest vok fs a).1.any NutterCall.isRunTests
       = !valid (lastSegment a.test_pattern)) := by
  rw [NutterCLI.run_dispatch_eq ρ valid rtests rtest vok fs a conf hguard hconf,
    NutterCLI.is_a_test_pattern_eq valid a.test_pattern]
  cases hv : valid (lastSegment a.test_pattern) <;>
    simp [NutterCall.isRunTest, NutterCall.isRunTests]

/-- Claim C8, witness: with an existing cluster id, the pattern
`proj/test_a` (valid test name after the last `/`) goes to `run_test` and
not to `run_tests`. -/
theorem C8_witness :
    ((NutterCLI.run spec_valid_test_name runTestsW runTestW validateOkW
        fsEmpty { test_pattern := "proj/test_a", cluster_id := some "c1" }).1.any
          NutterCall.isRunTest
      = spec_valid_test_name (lastSegment "proj/test_a"))
    ∧ ((NutterCLI.run spec_valid_test_name runTestsW runTestW validateOkW
        fsEmpty { test_pattern := "proj/test_a", cluster_id := some "c1" }).1.any
          NutterCall.isRunTests
      = !spec_valid_test_name (lastSegment "proj/test_a")) :=
  C8_dispatch_by_naming Nat spec_valid_test_name runTestsW runTestW
    validateOkW fsEmpty { test_pattern := "proj/test_a", cluster_id := some "c1" }
    none (by decide) rfl rfl

/-- The single-test CLI invocation used to refute claim C9: a valid test
name, a truthy `cluster_conf_path` and notebook parameters. -/
def argsC9 : RunArgs :=
  { test_pattern := "proj/test_a",
    notebook_params := some (.obj [("p", .str "v")]),
    cluster_conf_path := some "cfg.json" }

/-- The same invocation with a directory pattern, taking the
`run_tests` path. -/
def argsC9dir : RunArgs := { argsC9 with test_pattern := "proj/folder" }

/-- Claim C9, counterexample: in the single-test invocation `argsC9` the
cluster config resolves to `{"a": 1}` (read from `cluster_conf_path`),
yet the dispatched call is `run_test(test_pattern, cluster_id, timeout,
poll_wait_time)` — the resolved cluster configuration and
`notebook_params` are not forwarded — and `events_processor_wait` is
never called; the same invocation with a directory pattern dispatches
`run_tests` with the resolved config and the notebook params and then
flushes events.  The single-test path is therefore not equivalent to the
pattern path restricted to a singleton. -/
theorem C9_counterexample :
    (NutterCLI.run spec_valid_test_name runTestsW runTestW validateOkW
        fsNoClusterConfigs argsC9).1
      = [NutterCall.runTest "proj/test_a" none 120 5]
    ∧ ((NutterCLI.run spec_valid_test_name runTestsW runTestW validateOkW
        fsNoClusterConfigs argsC9).1.any NutterCall.isEventsWait) = false
    ∧ NutterCLI.resolve_cluster_conf fsNoClusterConfigs argsC9
        = .ok (some (.obj [("a", JSON.num 1)]))
    ∧ (NutterCLI.run spec_valid_test_name runTestsW runTestW validateOkW
        fsNoClusterConfigs argsC9dir).1
      = [NutterCall.runTests "proj/folder" none
           (some (.obj [("a", JSON.num 1)])) 120 1 false 5
           (some (.obj [("p", JSON.str "v")])),
         NutterCall.eventsWait]
    ∧ ((NutterCLI.run spec_valid_test_name runTestsW runTestW validateOkW
        fsNoClusterConfigs argsC9dir).1.any NutterCall.isEventsWait) = true :=
  ⟨rfl, rfl, rfl, rfl, rfl⟩

/-- Claim C9 (amended: the single-test path shares the selector check, the
cluster-config resolution and the results-handling/exit contract with the
pattern path, but dispatches `run_test` with only the test pattern,
cluster id, timeout and poll wait time — the resolved cluster
configuration and `notebook_params` are not forwarded, and
`events_processor_wait` is not called): any invocation classified as a
single test produces exactly one `run_test` call with those four
arguments and ends with the validator's verdict. -/
theorem C9_single_test_restricted (ρ : Type) (valid : String → Bool)
    (rtests : String → Option String → Option JSON → Int → Int → Bool →
      Int → Option JSON → List ρ)
    (rtest : String → Option String → Int → Int → ρ)
    (vok : List ρ → Bool) (fs : String → Option JSON) (a : RunArgs)
    (conf : Option JSON)
    (hguard : (!optStrTruthy a.cluster_conf_path
        && !optStrTruthy a.cluster_id
        && !dictOptTruthy a.cluster_config) = false)
    (hconf : NutterCLI.resolve_cluster_conf fs a = .ok conf)
    (hsingle : NutterCLI.is_a_test_pattern valid a.test_pattern = false) :
    NutterCLI.run valid rtests rtest vok fs a
      = ([NutterCall.runTest a.test_pattern a.cluster_id a.timeout
            a.poll_wait_time],
         if vok [rtest a.test_pattern a.cluster_id a.timeout
             a.poll_wait_time] then .returned else .exited 1) := by
  rw [NutterCLI.run_dispatch_eq ρ valid rtests rtest vok fs a conf hguard hconf,
    hsingle]
  rfl

/-- Claim C9, witness: a single-test run against an existing cluster id
dispatches exactly one `run_test` call and returns. -/
theorem C9_witness :
    NutterCLI.run spec_valid_test_name runTestsW runTestW validateOkW
        fsEmpty { test_pattern := "test_b", cluster_id := some "c1" }
      = ([NutterCall.runTest "test_b" (some "c1") 120 5], .returned) :=
  C9_single_test_restricted Nat spec_valid_test_name runTestsW runTestW
    validateOkW fsEmpty { test_pattern := "test_b", cluster_id := some "c1" }
    none rfl rfl rfl

/-- Claim C5: with neither `junit_report` nor `tags_report` selected, the
writers flag is 0, the report manager built from it has no providers, and
`_handle_reports` returns at the `has_providers` check: for every result
batch its effect trace is empty — no result is added, `write()` is never
called, and no output file name is ever printed. -/
theorem C5_no_reports_noop (α : Type) (to_testresults : Option String → Option α)
    (write_result : List (String × α) → List String)
    (exec_results : List ExecResult) :
    (reportsman.get_report_writer_manager
        (NutterCLI.report_writers false false)).providers = []
    ∧ NutterCLI.handle_reports to_testresults write_result
        (reportsman.get_report_writer_manager
          (NutterCLI.report_writers false false)) exec_results = [] :=
  ⟨rfl, rfl⟩

/-- Helper: a projection that is `none` on every element of a mapped list
filters to the empty list. -/
theorem filterMap_map_eq_nil {β γ δ : Type} (g : β → γ) (p : γ → Option δ)
    (h : ∀ b, p (g b) = none) (l : List β) : (l.map g).filterMap p = [] := by
  induction l with
  | nil => rfl
  | cons b bs ih => simp [h, ih]

/-- Helper: the warnings of `_handle_reports`' result loop are exactly the
notebook paths of the results whose `exit_output` fails to parse, in
order, one each. -/
theorem report_loop_warnPaths {α : Type} (f : Option String → Option α)
    (rs : List ExecResult) :
    (NutterCLI.report_loop f rs).filterMap ReportEffect.warnPath
      = (rs.filter (fun r => (f r.notebook_result.exit_output).isNone)).map
          (fun r => r.notebook_path) := by
  induction rs with
  | nil => rfl
  | cons r rs ih =>
      cases hfr : f r.notebook_result.exit_output <;>
        simp [NutterCLI.report_loop, hfr, ih, ReportEffect.warnPath]

/-- Helper: the `add_result` calls of the result loop are exactly the
parseable results, in order. -/
theorem report_loop_addedPairs {α : Type} (f : Option String → Option α)
    (rs : List ExecResult) :
    (NutterCLI.report_loop f rs).filterMap ReportEffect.addedPair
      = NutterCLI.added_results f rs := by
  induction rs with
  | nil => rfl
  | cons r rs ih =>
      cases hfr : f r.notebook_result.exit_output <;>
        simp [NutterCLI.report_loop, NutterCLI.added_results, hfr, ih,
          ReportEffect.addedPair]

/-- Claim C6: when the report manager has at least one provider, each
result whose `exit_output` is missing or unparsable contributes exactly
one warning naming its notebook path (and no `add_result`), every
parseable result is added to the report, and `write()` is called. -/
theorem C6_skip_unparsable_with_warning (α : Type)
    (f : Option String → Option α) (w : List (String × α) → List String)
    (rm : ReportManager) (rs : List ExecResult)
    (h : rm.has_providers = true) :
    ((NutterCLI.handle_reports f w rm rs).filterMap ReportEffect.warnPath
       = (rs.filter (fun r => (f r.notebook_result.exit_output).isNone)).map
           (fun r => r.notebook_path))
    ∧ ((NutterCLI.handle_reports f w rm rs).filterMap ReportEffect.addedPair
       = NutterCLI.added_results f rs)
    ∧ ((NutterCLI.handle_reports f w rm rs).any ReportEffect.isWrite = true) := by
  refine ⟨?_, ?_, ?_⟩ <;>
    simp [NutterCLI.handle_reports, h, List.filterMap_append, List.any_append,
      report_loop_warnPaths, report_loop_addedPairs,
      filterMap_map_eq_nil ReportEffect.printWritingProvider
        ReportEffect.warnPath (fun _ => rfl),
      filterMap_map_eq_nil ReportEffect.printFileWritten
        ReportEffect.warnPath (fun _ => rfl),
      filterMap_map_eq_nil ReportEffect.printWritingProvider
        ReportEffect.addedPair (fun _ => rfl),
      filterMap_map_eq_nil ReportEffect.printFileWritten
        ReportEffect.addedPair (fun _ => rfl),
      ReportEffect.warnPath, ReportEffect.addedPair, ReportEffect.isWrite]

/-- The spec's five-result batch: four with parseable output, one
(`/t/test_bad`) with a missing `exit_output`. -/
def rsFive : List ExecResult :=
  [{ notebook_path := "/t/test_1", notebook_result := { exit_output := some "r1" } },
   { notebook_path := "/t/test_2", notebook_result := { exit_output := some "r2" } },
   { notebook_path := "/t/test_bad", notebook_result := { exit_output := none } },
   { notebook_path := "/t/test_4", notebook_result := { exit_output := some "r4" } },
   { notebook_path := "/t/test_5", notebook_result := { exit_output := some "r5" } }]

/-- The report manager selected by `junit_report=True` alone. -/
def junitManager : ReportManager :=
  reportsman.get_report_writer_manager ReportWriters.JUNIT

/-- A concrete report writer producing one file. -/
def writeOneFile : List (String × String) → List String :=
  fun _ => ["test-results.xml"]

/-- Claim C6, witness: on the five-result batch with one missing output,
the warnings are exactly `["/t/test_bad"]`, the four valid results are
added, and `write()` runs. -/
theorem C6_witness :
    ((NutterCLI.handle_reports (fun o => o) writeOneFile junitManager
        rsFive).filterMap ReportEffect.warnPath = ["/t/test_bad"])
    ∧ ((NutterCLI.handle_reports (fun o => o) writeOneFile junitManager
        rsFive).filterMap ReportEffect.addedPair
      = [("/t/test_1", "r1"), ("/t/test_2", "r2"),
         ("/t/test_4", "r4"), ("/t/test_5", "r5")])
    ∧ ((NutterCLI.handle_reports (fun o => o) writeOneFile junitManager
        rsFive).any ReportEffect.isWrite = true) :=
  C6_skip_unparsable_with_warning String (fun o => o) writeOneFile
    junitManager rsFive rfl

/-- Claim C7: the writers value computed by
`_get_report_writer_manager` is the additive bit-flag combination of the
two report flags: 0, `JUNIT`, `TAGS`, or `JUNIT + TAGS`. -/
theorem C7_report_writer_bitflags :
    NutterCLI.report_writers false false = 0
    ∧ NutterCLI.report_writers true false = ReportWriters.JUNIT
    ∧ NutterCLI.report_writers false true = ReportWriters.TAGS
    ∧ NutterCLI.report_writers true true
        = ReportWriters.JUNIT + ReportWriters.TAGS :=
  ⟨rfl, rfl, rfl, rfl⟩
